import Mathlib

/-!
Verification of the MMS promotional-planning backend.

Shallow embedding of the parts of the code the claims concern:
  - src/backend/engines/learning_engine.py  (LearningEngine)
  - src/backend/api/utils/pagination.py     (paginate_list)
  - src/backend/models/schemas.py           (DateRange, PromoMechanic)
  - src/backend/api/routes/scenarios.py     (default scenario channels)

Conventions: Python floats are modelled as rationals; Python dicts that the
code reads by key are modelled as association lists with List.lookup; a
function that can raise returns Except String.
-/

/-- One post-mortem report; we embed the fields the Learning Engine reads
(schemas.py: PostMortemReport.scenario_id, PostMortemReport.forecast_accuracy,
an optional dict from metric name to float). -/
structure PostMortemReport where
  scenario_id : String
  forecast_accuracy : Option (List (String × ℚ))
deriving DecidableEq, Repr

/-- UpliftModel (schemas.py): category -> channel -> coefficient, a version
string and a last_updated timestamp (datetime modelled as an integer). -/
structure UpliftModel where
  coefficients : List (String × List (String × ℚ))
  version : String
  last_updated : Int
deriving DecidableEq, Repr

/-- learning_engine.py line 25: self.adjustment_floor = 0.8 (set in init and
never reassigned). -/
def adjustment_floor : ℚ := 0.8

/-- learning_engine.py line 26: self.adjustment_cap = 1.2. -/
def adjustment_cap : ℚ := 1.2

/-- Python's builtin min on two floats, by comparison (kept executable so
concrete runs of the embedding reduce). -/
def pymin (a b : ℚ) : ℚ := if a ≤ b then a else b

/-- Python's builtin max on two floats, by comparison. -/
def pymax (a b : ℚ) : ℚ := if a ≤ b then b else a

/-- learning_engine.py lines 87-88: (report.forecast_accuracy or \x7b\x7d).get
("total_sales_pct_error").  A missing dict and an empty dict both yield no
value, so the falsy-or is Option.getD []. -/
def pmPctError (report : PostMortemReport) : Option ℚ :=
  (report.forecast_accuracy.getD []).lookup "total_sales_pct_error"

/-- learning_engine.py lines 63-100, LearningEngine.calculate_model_adjustments.
The category and channel parameters exist in the signature but are never read
by the body.  Branch order of the pct_errors test is flipped relative to the
source (empty case first); the two branches are the same ones. -/
def calculate_model_adjustments (post_mortems : List PostMortemReport)
    (category : Option String := none) (channel : Option String := none) :
    List (String × ℚ) :=
  if post_mortems.isEmpty then
    [("global", 1)]
  else
    let pct_errors := post_mortems.filterMap pmPctError
    if pct_errors.isEmpty then
      [("global", 1)]
    else
      let avg_error := pct_errors.sum / (pct_errors.length : ℚ)
      let factor := 1 + (-avg_error) * 0.1
      [("global", pymax adjustment_floor (pymin adjustment_cap factor))]

/-- Python falsy-or on an optional float: None and 0.0 both fall through to
the right-hand side (learning_engine.py line 52 uses an or-chain on dict.get
results). -/
def orFloat (x : Option ℚ) (y : ℚ) : ℚ :=
  match x with
  | none => y
  | some v => if v = 0 then y else v

/-- learning_engine.py lines 28-61, LearningEngine.update_uplift_model.
The guard `not post_mortems or not current_model` can only fire on the list
here: a model instance is always truthy and the model argument is not
optional in this embedding.  The source writes the result into fresh dicts
(new_coefficients) and never assigns into current_model, so the pure map
below is faithful to its effect. -/
def update_uplift_model (current_model : UpliftModel)
    (post_mortems : List PostMortemReport) : Except String UpliftModel :=
  if post_mortems.isEmpty then
    Except.error "post_mortems and current_model are required"
  else
    let adjustments := calculate_model_adjustments post_mortems
    let new_coefficients :=
      current_model.coefficients.map fun cat =>
        (cat.1, cat.2.map fun ch =>
          let factor :=
            orFloat (adjustments.lookup (cat.1 ++ ":" ++ ch.1))
              (orFloat (adjustments.lookup "global") 1)
          let adjusted := ch.2 * factor
          (ch.1, pymax (adjustment_floor * ch.2)
            (pymin (adjustment_cap * ch.2) adjusted)))
    Except.ok
      { coefficients := new_coefficients
        version := current_model.version ++ "-learned"
        last_updated := current_model.last_updated }

/-- The clamp the spec speaks of: clamp(v, lo, hi) = max(lo, min(hi, v)),
the shape used at learning_engine.py line 96. -/
def clamp (v lo hi : ℚ) : ℚ := max lo (min hi v)

/-- Pagination metadata dict (pagination.py lines 20-25). -/
structure PageMeta where
  page : Int
  page_size : Int
  total : Nat
  total_pages : Nat
deriving DecidableEq, Repr

/-- pagination.py lines 7-26, paginate_list.  `page or 1` and
`page_size or 20` are Python falsy-or on ints: 0 falls through to the
default, any other int is kept.  safe_page and safe_size are at least 1, so
the slice indices are non-negative and materialized[start:end] is
drop start, then take (end - start) = take safe_size. -/
def paginate_list {α : Type} (items : List α) (page : Int := 1)
    (page_size : Int := 20) : List α × PageMeta :=
  let safe_page : Int := max 1 (if page = 0 then 1 else page)
  let safe_size : Int := max 1 (min (if page_size = 0 then 20 else page_size) 100)
  let total := items.length
  let start := ((safe_page - 1) * safe_size).toNat
  let sliced := (items.drop start).take safe_size.toNat
  (sliced,
   { page := safe_page
     page_size := safe_size
     total := total
     total_pages :=
       if safe_size ≠ 0 then (total + safe_size.toNat - 1) / safe_size.toNat
       else 0 })

/-- schemas.py lines 16-19: DateRange has two date fields (dates modelled as
integer day ordinals) and declares no validator. -/
structure DateRange where
  start_date : Int
  end_date : Int
deriving DecidableEq, Repr

/-- Pydantic construction of DateRange: field-level type validation only;
schemas.py declares no cross-field check relating the two dates, so every
pair of dates is accepted. -/
def DateRange.construct (start_date end_date : Int) : Except String DateRange :=
  Except.ok { start_date := start_date, end_date := end_date }

/-- schemas.py lines 22-28: PromoMechanic. -/
structure PromoMechanic where
  department : String
  channel : String
  discount_pct : ℚ
  segments : List String
  notes : Option String
  product_focus : Option (List String)
deriving DecidableEq, Repr

/-- Pydantic construction of PromoMechanic: the declared field types are the
only validation (channel is a plain str, discount_pct a plain float); the
segments field defaults to ["ALL"] when not supplied. -/
def PromoMechanic.construct (department channel : String) (discount_pct : ℚ)
    (segments : Option (List String) := none) : Except String PromoMechanic :=
  Except.ok
    { department := department
      channel := channel
      discount_pct := discount_pct
      segments := segments.getD ["ALL"]
      notes := none
      product_focus := none }

/-- scenarios.py, _build_default_scenario: the channels default used when the
caller supplies none, params.get("channels", ["online", "store"]); the
serializer emits one mechanic row per department x channel from this list. -/
def default_scenario_channels : List String := ["online", "store"]

/-! Sample inputs used by witnesses and concrete evaluations. -/

/-- A post-mortem reporting total_sales_pct_error = -20 (an over-forecast). -/
def pmOver : PostMortemReport :=
  { scenario_id := "pm-over", forecast_accuracy := some [("total_sales_pct_error", -20)] }

/-- A post-mortem reporting total_sales_pct_error = 10 (an under-forecast). -/
def pmUnder : PostMortemReport :=
  { scenario_id := "pm-under", forecast_accuracy := some [("total_sales_pct_error", 10)] }

/-- A one-coefficient uplift model. -/
def modelA : UpliftModel :=
  { coefficients := [("TV", [("online", 1)])], version := "v1", last_updated := 0 }

/-! Unfolding lemmas: the definitions with their let-bindings expanded, for
use in proofs.  Each is definitional. -/

theorem calculate_model_adjustments_eq (pms : List PostMortemReport) :
    calculate_model_adjustments pms =
      if pms.isEmpty then [("global", 1)]
      else if (pms.filterMap pmPctError).isEmpty then [("global", 1)]
      else [("global", pymax adjustment_floor (pymin adjustment_cap
        (1 + (-((pms.filterMap pmPctError).sum /
          ((pms.filterMap pmPctError).length : ℚ))) * 0.1)))] := rfl

theorem update_uplift_model_eq (m : UpliftModel) (pms : List PostMortemReport) :
    update_uplift_model m pms =
      if pms.isEmpty then
        Except.error "post_mortems and current_model are required"
      else
        Except.ok
          { coefficients :=
              m.coefficients.map fun cat =>
                (cat.1, cat.2.map fun ch =>
                  (ch.1, pymax (adjustment_floor * ch.2)
                    (pymin (adjustment_cap * ch.2)
                      (ch.2 * orFloat
                        ((calculate_model_adjustments pms).lookup (cat.1 ++ ":" ++ ch.1))
                        (orFloat ((calculate_model_adjustments pms).lookup "global") 1)))))
            version := m.version ++ "-learned"
            last_updated := m.last_updated } := rfl

/-- A permutation preserves emptiness. -/
theorem perm_isEmpty_eq {α : Type} {l1 l2 : List α} (h : l1.Perm l2) :
    l1.isEmpty = l2.isEmpty := by
  cases l1 with
  | nil => rw [h.symm.eq_nil]
  | cons a t =>
    cases l2 with
    | nil => exact absurd h.eq_nil (List.cons_ne_nil a t)
    | cons b u => rfl

/-- If pmPctError is defined (some) on every member, filterMap is map. -/
theorem filterMap_pmPctError_eq_map {l : List PostMortemReport}
    (e : PostMortemReport → ℚ) (he : ∀ r ∈ l, pmPctError r = some (e r)) :
    l.filterMap pmPctError = l.map e := by
  induction l with
  | nil => rfl
  | cons a t ih =>
    rw [List.filterMap_cons_some (he a (by simp)),
      List.map_cons, ih (fun r hr => he r (by simp [hr]))]

/-- The comparison-based pymin agrees with the order-theoretic min. -/
theorem pymin_eq_min (a b : ℚ) : pymin a b = min a b := by
  unfold pymin
  split
  · exact (min_eq_left (by assumption)).symm
  · exact (min_eq_right (le_of_not_le (by assumption))).symm

/-- The comparison-based pymax agrees with the order-theoretic max. -/
theorem pymax_eq_max (a b : ℚ) : pymax a b = max a b := by
  unfold pymax
  split
  · exact (max_eq_right (by assumption)).symm
  · exact (max_eq_left (le_of_not_le (by assumption))).symm

/-- The clamped adjusted coefficient always lies between 0.8 and 1.2 times
the old coefficient, whichever order those bounds come in. -/
theorem coeff_clamp_between (c f : ℚ) :
    min (0.8 * c) (1.2 * c) ≤ pymax (0.8 * c) (pymin (1.2 * c) (c * f)) ∧
    pymax (0.8 * c) (pymin (1.2 * c) (c * f)) ≤ max (0.8 * c) (1.2 * c) := by
  rw [pymax_eq_max, pymin_eq_min]
  exact ⟨le_trans (min_le_left _ _) (le_max_left _ _),
    max_le (le_max_left _ _) (le_trans (min_le_left _ _) (le_max_right _ _))⟩

/-- Concrete run of the learning update on the one-coefficient model and the
under-forecast post-mortem: the global factor is clamped to the floor 0.8 and
so is the coefficient. -/
theorem update_modelA_pmUnder :
    update_uplift_model modelA [pmUnder] =
      Except.ok { coefficients := [("TV", [("online", 0.8)])],
                  version := "v1-learned", last_updated := 0 } := by
  rw [update_uplift_model_eq, calculate_model_adjustments_eq]
  have h1 : ("TV" ++ ":" ++ "online") = "TV:online" := rfl
  have h2 : ("v1" ++ "-learned") = "v1-learned" := rfl
  have h3 : ("TV:online" == "global") = false := by decide
  norm_num [modelA, pmUnder, pmPctError, adjustment_floor, adjustment_cap,
    pymin, pymax, orFloat, List.lookup, List.filterMap, h1, h2, h3]

/-- C1: at the claim's input (every post-mortem reports
total_sales_pct_error = -20) calculate_model_adjustments returns the cap 1.2
for the global factor: the raw factor is 1 + 20 * 0.1 = 3, clamped from above,
so the result is not below 1.0 and is not the floor 0.8 the claim (and the
code's own inline comment about reducing elasticity on over-forecast)
requires. -/
theorem C1_cap_not_floor :
    (calculate_model_adjustments [pmOver]).lookup "global" = some 1.2 ∧
    ¬ ((1.2 : ℚ) < 1) ∧ (1.2 : ℚ) ≠ 0.8 := by
  refine ⟨?_, by norm_num, by norm_num⟩
  rw [calculate_model_adjustments_eq]
  norm_num [pmOver, pmPctError, adjustment_floor, adjustment_cap, pymin, pymax,
    List.lookup, List.filterMap]

/-- C2: on a non-empty post-mortem list in which every report carries a
total_sales_pct_error value, the global factor is exactly
clamp(1 + (-avg) * 0.1, 0.8, 1.2) where avg is the arithmetic mean of the
reports' values. -/
theorem C2_avg_clamp (pms : List PostMortemReport) (e : PostMortemReport → ℚ)
    (hne : pms ≠ []) (he : ∀ r ∈ pms, pmPctError r = some (e r)) :
    (calculate_model_adjustments pms).lookup "global" =
      some (clamp (1 + (-((pms.map e).sum / (pms.length : ℚ))) * 0.1) 0.8 1.2) := by
  obtain ⟨a, t, rfl⟩ := List.exists_cons_of_ne_nil hne
  rw [calculate_model_adjustments_eq, filterMap_pmPctError_eq_map e he]
  simp [List.lookup, clamp, pymax_eq_max, pymin_eq_min, adjustment_floor,
    adjustment_cap]

/-- C2 witness: a singleton list whose report carries the value 10. -/
theorem C2_avg_clamp_witness :
    (calculate_model_adjustments [pmUnder]).lookup "global" =
      some (clamp (1 + (-((([pmUnder].map (fun _ => (10 : ℚ))).sum) /
        (([pmUnder] : List PostMortemReport).length : ℚ))) * 0.1) 0.8 1.2) :=
  C2_avg_clamp [pmUnder] (fun _ => 10) (List.cons_ne_nil _ _)
    (by
      intro r hr
      rw [List.mem_singleton] at hr
      subst hr
      norm_num [pmUnder, pmPctError, List.lookup])

/-- C3: every coefficient produced by update_uplift_model lies between 0.8
times and 1.2 times the corresponding input coefficient, entry by entry, for
every (category, channel) key. -/
theorem C3_coeff_bounds (m m' : UpliftModel) (pms : List PostMortemReport)
    (h : update_uplift_model m pms = Except.ok m') :
    List.Forall₂ (fun old new => old.1 = new.1 ∧
        List.Forall₂ (fun oc nc => oc.1 = nc.1 ∧
            min (0.8 * oc.2) (1.2 * oc.2) ≤ nc.2 ∧
            nc.2 ≤ max (0.8 * oc.2) (1.2 * oc.2)) old.2 new.2)
      m.coefficients m'.coefficients := by
  rw [update_uplift_model_eq] at h
  by_cases he : pms.isEmpty
  · rw [if_pos he] at h
    exact absurd h (by simp)
  · rw [if_neg he] at h
    injection h with h
    subst h
    rw [List.forall₂_map_right_iff, List.forall₂_same]
    intro x hx
    refine ⟨rfl, ?_⟩
    rw [List.forall₂_map_right_iff, List.forall₂_same]
    intro y hy
    exact ⟨rfl, coeff_clamp_between y.2 _⟩

/-- C3 witness: concrete model and post-mortem list. -/
theorem C3_coeff_bounds_witness :
    List.Forall₂ (fun old new => old.1 = new.1 ∧
        List.Forall₂ (fun oc nc => oc.1 = nc.1 ∧
            min (0.8 * oc.2) (1.2 * oc.2) ≤ nc.2 ∧
            nc.2 ≤ max (0.8 * oc.2) (1.2 * oc.2)) old.2 new.2)
      modelA.coefficients
      (UpliftModel.mk [("TV", [("online", 0.8)])] "v1-learned" 0).coefficients :=
  C3_coeff_bounds modelA (UpliftModel.mk [("TV", [("online", 0.8)])] "v1-learned" 0)
    [pmUnder] update_modelA_pmUnder

/-- C4: on an empty post-mortem list, calculate_model_adjustments returns the
explicit default factor 1.0 and update_uplift_model raises an error to the
caller. -/
theorem C4_empty_inputs :
    calculate_model_adjustments [] = [("global", 1)] ∧
    ∀ m : UpliftModel, update_uplift_model m [] =
      Except.error "post_mortems and current_model are required" :=
  ⟨rfl, fun _ => rfl⟩

/-- C5: the model returned by update_uplift_model carries the input version
suffixed with "-learned" and the input's last_updated; the input model is a
value the pure computation only reads (the source builds fresh dicts and
never assigns into it). -/
theorem C5_version_suffix (m m' : UpliftModel) (pms : List PostMortemReport)
    (h : update_uplift_model m pms = Except.ok m') :
    m'.version = m.version ++ "-learned" ∧ m'.last_updated = m.last_updated := by
  rw [update_uplift_model_eq] at h
  by_cases he : pms.isEmpty
  · rw [if_pos he] at h
    exact absurd h (by simp)
  · rw [if_neg he] at h
    injection h with h
    subst h
    exact ⟨rfl, rfl⟩

/-- C5 witness: concrete model and post-mortem list. -/
theorem C5_version_suffix_witness :
    (UpliftModel.mk [("TV", [("online", 0.8)])] "v1-learned" 0).version =
        modelA.version ++ "-learned" ∧
    (UpliftModel.mk [("TV", [("online", 0.8)])] "v1-learned" 0).last_updated =
        modelA.last_updated :=
  C5_version_suffix modelA (UpliftModel.mk [("TV", [("online", 0.8)])] "v1-learned" 0)
    [pmUnder] update_modelA_pmUnder

/-- C6 counterexample: a DateRange whose end_date precedes its start_date is
accepted by construction; nothing rejects it. -/
theorem C6_order_not_checked :
    DateRange.construct 100 99 = Except.ok { start_date := 100, end_date := 99 } ∧
    (99 : Int) < 100 :=
  ⟨rfl, by norm_num⟩

/-- C6 amended: DateRange stores the two dates with no enforced ordering
invariant; construction succeeds for every pair of dates and returns them
unchanged. -/
theorem C6_construct_unchecked (s e : Int) :
    DateRange.construct s e = Except.ok { start_date := s, end_date := e } := rfl

/-- C7 counterexample: PromoMechanic accepts a channel that is neither
online nor offline, a discount above 100, and an empty segments list; the
default scenario builder even uses the channel "store". -/
theorem C7_unvalidated :
    PromoMechanic.construct "TV" "store" 150 (some []) =
      Except.ok { department := "TV", channel := "store", discount_pct := 150,
                  segments := [], notes := none, product_focus := none } ∧
    "store" ∈ default_scenario_channels ∧
    "store" ≠ "online" ∧ "store" ≠ "offline" ∧ ¬ ((150 : ℚ) ≤ 100) :=
  ⟨rfl, by simp [default_scenario_channels], by decide, by decide, by norm_num⟩

/-- C7 amended: PromoMechanic validates only the field types; when segments
is omitted it defaults to ["ALL"], and any department, channel and
discount_pct are accepted unchanged. -/
theorem C7_default_segments (department channel : String) (discount_pct : ℚ) :
    PromoMechanic.construct department channel discount_pct none =
      Except.ok { department := department, channel := channel,
                  discount_pct := discount_pct, segments := ["ALL"],
                  notes := none, product_focus := none } := rfl

/-- C8: calculate_model_adjustments is invariant under permutation of its
input list: reordering the post-mortems does not change the returned
adjustment factors. -/
theorem C8_perm_invariant (l1 l2 : List PostMortemReport) (h : l1.Perm l2) :
    calculate_model_adjustments l1 = calculate_model_adjustments l2 := by
  have hfm := h.filterMap pmPctError
  rw [calculate_model_adjustments_eq, calculate_model_adjustments_eq,
    perm_isEmpty_eq h, perm_isEmpty_eq hfm, hfm.sum_eq, hfm.length_eq]

/-- C8 witness: swapping the two sample post-mortems. -/
theorem C8_perm_invariant_witness :
    calculate_model_adjustments [pmOver, pmUnder] =
      calculate_model_adjustments [pmUnder, pmOver] :=
  C8_perm_invariant [pmOver, pmUnder] [pmUnder, pmOver]
    (List.Perm.swap pmUnder pmOver [])

/-- C9: update_uplift_model preserves the coefficient key structure exactly:
the returned model has the same categories in the same order, each with the
same channels in the same order, as the input model. -/
theorem C9_keys_preserved (m m' : UpliftModel) (pms : List PostMortemReport)
    (h : update_uplift_model m pms = Except.ok m') :
    m'.coefficients.map (fun p => (p.1, p.2.map Prod.fst)) =
      m.coefficients.map (fun p => (p.1, p.2.map Prod.fst)) := by
  rw [update_uplift_model_eq] at h
  by_cases he : pms.isEmpty
  · rw [if_pos he] at h
    exact absurd h (by simp)
  · rw [if_neg he] at h
    injection h with h
    subst h
    simp [List.map_map, Function.comp_def]

/-- C9 witness: concrete model and post-mortem list. -/
theorem C9_keys_preserved_witness :
    (UpliftModel.mk [("TV", [("online", 0.8)])] "v1-learned" 0).coefficients.map
        (fun p => (p.1, p.2.map Prod.fst)) =
      modelA.coefficients.map (fun p => (p.1, p.2.map Prod.fst)) :=
  C9_keys_preserved modelA (UpliftModel.mk [("TV", [("online", 0.8)])] "v1-learned" 0)
    [pmUnder] update_modelA_pmUnder

/-- paginate_list with its let-bindings expanded; definitional. -/
theorem paginate_list_eq {α : Type} (items : List α) (page page_size : Int) :
    paginate_list items page page_size =
      ((items.drop (((max 1 (if page = 0 then 1 else page) - 1) *
            (max 1 (min (if page_size = 0 then 20 else page_size) 100))).toNat)).take
          (max 1 (min (if page_size = 0 then 20 else page_size) 100)).toNat,
       { page := max 1 (if page = 0 then 1 else page)
         page_size := max 1 (min (if page_size = 0 then 20 else page_size) 100)
         total := items.length
         total_pages :=
           if (max 1 (min (if page_size = 0 then 20 else page_size) 100)) ≠ 0 then
             (items.length +
                 (max 1 (min (if page_size = 0 then 20 else page_size) 100)).toNat - 1) /
               (max 1 (min (if page_size = 0 then 20 else page_size) 100)).toNat
           else 0 }) := rfl

/-- C10 counterexample: at page_size = 0 the code uses the default size 20
(Python falsy-or), while the claimed formula min(max(1, page_size), 100)
gives 1; the returned page holds both items, not one. -/
theorem C10_page_size_zero :
    (paginate_list ["a", "b"] 1 0).2.page_size = 20 ∧
    min (max 1 (0 : Int)) 100 = 1 ∧
    (paginate_list ["a", "b"] 1 0).1 = ["a", "b"] := by decide

/-- C10 amended: paginate_list returns the slice starting at (p-1)*s of
length s, where p = max(1, page) and s = min(max(1, page_size), 100) except
that page_size = 0 falls back to the default 20; total is the item count,
total_pages is the ceiling of total / s, and the page never holds more than
100 items. -/
theorem C10_slice_meta {α : Type} (items : List α) (page page_size : Int) :
    paginate_list items page page_size =
      ((items.drop (((max 1 page - 1) *
            (if page_size = 0 then 20 else min (max 1 page_size) 100)).toNat)).take
          (if page_size = 0 then 20 else min (max 1 page_size) 100).toNat,
       { page := max 1 page
         page_size := if page_size = 0 then 20 else min (max 1 page_size) 100
         total := items.length
         total_pages := (items.length +
             (if page_size = 0 then (20 : Int) else min (max 1 page_size) 100).toNat - 1) /
           (if page_size = 0 then (20 : Int) else min (max 1 page_size) 100).toNat }) ∧
    (paginate_list items page page_size).1.length ≤ 100 := by
  have hpage : max 1 (if page = 0 then 1 else page) = max 1 page := by
    by_cases h0 : page = 0
    · rw [if_pos h0, h0]
      decide
    · rw [if_neg h0]
  have hsize : max 1 (min (if page_size = 0 then 20 else page_size) 100) =
      (if page_size = 0 then (20 : Int) else min (max 1 page_size) 100) := by
    by_cases h0 : page_size = 0
    · rw [if_pos h0, if_pos h0]
      decide
    · rw [if_neg h0, if_neg h0, max_min_distrib_left]
      norm_num
  have hpos : (1 : Int) ≤ (if page_size = 0 then (20 : Int) else min (max 1 page_size) 100) := by
    by_cases h0 : page_size = 0
    · rw [if_pos h0]
      norm_num
    · rw [if_neg h0]
      exact le_min (le_max_left _ _) (by norm_num)
  constructor
  · rw [paginate_list_eq, hpage, hsize,
      if_pos (show (if page_size = 0 then (20 : Int) else min (max 1 page_size) 100) ≠ 0 by
        intro hc
        rw [hc] at hpos
        norm_num at hpos)]
  · rw [paginate_list_eq]
    have h100 : (max 1 (min (if page_size = 0 then 20 else page_size) 100) : Int) ≤ 100 :=
      max_le (by norm_num) (min_le_right _ _)
    have hN : (max 1 (min (if page_size = 0 then 20 else page_size) 100) : Int).toNat ≤ 100 :=
      Int.toNat_le.mpr (by exact_mod_cast h100)
    exact le_trans (by rw [List.length_take]; exact min_le_left _ _) hN
